import Mathlib

/-!
Verification of the cinepicker core: the TMDB upstream fetch client
(`src/lib/tmdb.ts`) and the infinite-scroll pagination engine
(`useInfiniteScroll`).  Each TypeScript function is shallowly embedded as a
Lean definition; the React hook's event-loop behaviour is embedded as a step
function over an explicit engine state, driven by traces of UI events.
-/

namespace Cinepicker

/-! ## Constants from `src/lib/tmdb.ts` -/

def TMDB_BASE_URL : String := "https://api.themoviedb.org/3"

def TMDB_IMAGE_BASE_URL : String := "https://image.tmdb.org/t/p"

def DEFAULT_LANGUAGE : String := "ko-KR"

def DEFAULT_REGION : String := "KR"

/-! ## TMDB error types (`TMDBErrorResponse`, `class TMDBError`) -/

/-- The upstream error envelope: `{ status_code, status_message }`. -/
structure TMDBErrorResponse where
  status_code : Nat
  status_message : String
deriving DecidableEq, Repr

/-- The typed error `class TMDBError extends Error`: fields `statusCode` and
`statusMessage` plus the inherited `name`/`message`. -/
structure TMDBError where
  name : String
  message : String
  statusCode : Nat
  statusMessage : String
deriving DecidableEq, Repr

/-- The `TMDBError` constructor: `super` sets
`message = "TMDB API Error (" + httpStatus + "): " + status_message`,
then `statusCode` and `statusMessage` are copied from the envelope. -/
def TMDBError.ofResponse (response : TMDBErrorResponse) (httpStatus : Nat) :
    TMDBError :=
  { name := "TMDBError"
    message := "TMDB API Error (" ++ toString httpStatus ++ "): " ++
      response.status_message
    statusCode := response.status_code
    statusMessage := response.status_message }

/-! ## URL query parameters

`fetchTMDB` only ever calls `url.searchParams.set(key, value)`, so the
`URLSearchParams` object is embedded as its key-to-value lookup. -/

def URLParams : Type := String → Option String

def emptyParams : URLParams := fun _ => none

/-- `url.searchParams.set(k, v)`: the value for `k` becomes `v`, every other
key keeps its value. -/
def setParam (ps : URLParams) (k v : String) : URLParams :=
  fun q => if q = k then some v else ps q

/-- `Object.entries(params).forEach(([key, value]) => set(key, value))`. -/
def applyCallerParams (ps : URLParams) (params : List (String × String)) :
    URLParams :=
  params.foldl (fun acc kv => setParam acc kv.1 kv.2) ps

/-- The three client-injected entries, in the order `fetchTMDB` sets them:
`api_key`, then `language`, then `region`. -/
def injectedDefaults (apiKey : String) : URLParams :=
  setParam (setParam (setParam emptyParams "api_key" apiKey)
    "language" DEFAULT_LANGUAGE) "region" DEFAULT_REGION

/-- The full query of the built request URL: defaults first, then the caller
params are merged on top (step 2 of `fetchTMDB`). -/
def tmdbQuery (apiKey : String) (params : List (String × String)) : URLParams :=
  applyCallerParams (injectedDefaults apiKey) params

/-- Value of the last occurrence of key `k` in the caller's params list
(JS object literals have unique keys, and with repeated `set` the last write
wins). -/
def lastAssoc : List (String × String) → String → Option String
  | [], _ => none
  | kv :: rest, k =>
    match lastAssoc rest k with
    | some v => some v
    | none => if kv.1 = k then some kv.2 else none

/-! ## `fetchTMDB` -/

/-- The `options` argument: `RequestInit & { next?: { revalidate?: number } }`,
restricted to the fields the module uses (`cache`, `next.revalidate`). -/
structure FetchOptions where
  cache : Option String := none
  revalidate : Option Nat := none
deriving DecidableEq, Repr

/-- Possible outcomes of the underlying `fetch` round-trip, as observed by
`fetchTMDB`: a 2xx body, a non-2xx status with a parsed error envelope, or a
transport failure (the promise rejecting). -/
inductive HttpResult (T : Type) where
  | ok (body : T)
  | httpError (httpStatus : Nat) (envelope : TMDBErrorResponse)
  | networkFailure (msg : String)
deriving DecidableEq, Repr

/-- What `fetchTMDB` can throw: the typed `TMDBError`, or the underlying
network error propagating unchanged. -/
inductive FetchErr where
  | tmdb (e : TMDBError)
  | network (msg : String)
deriving DecidableEq, Repr

instance {ε α : Type} [DecidableEq ε] [DecidableEq α] :
    DecidableEq (Except ε α) := fun a b =>
  match a, b with
  | .ok x, .ok y => decidable_of_iff (x = y) (by simp)
  | .error x, .error y => decidable_of_iff (x = y) (by simp)
  | .ok _, .error _ => .isFalse (by simp)
  | .error _, .ok _ => .isFalse (by simp)

/-- Observable result of one `fetchTMDB` call: the returned value or thrown
error, together with any `console.warn` output.  The returned value is
`Option T` because the missing-key branch returns `null as unknown as T`. -/
structure FetchOutput (T : Type) where
  result : Except FetchErr (Option T)
  warnings : List String
deriving Repr, DecidableEq

def missingKeyWarning : String :=
  "[TMDB] TMDB_API_KEY 환경 변수가 설정되지 않았습니다. .env.local 파일을 확인하세요."

/-- `fetchTMDB<T>(endpoint, params, options)`.  `apiKeyEnv` is
`process.env.TMDB_API_KEY`; `upstream` is the behaviour of the external API,
a function of the endpoint, the built query and the effective fetch options.

Step 1: no key means warn and return null (no throw).
Step 2: build the URL query (defaults, then caller params).
Step 3: issue the GET with `next.revalidate` defaulted to 3600.
Step 4: non-ok status throws `TMDBError` built from the envelope.
Step 5: otherwise return the parsed body. -/
def fetchTMDB {T : Type} (apiKeyEnv : Option String) (endpoint : String)
    (params : List (String × String)) (options : FetchOptions)
    (upstream : String → URLParams → FetchOptions → HttpResult T) :
    FetchOutput T :=
  match apiKeyEnv with
  | none => { result := .ok none, warnings := [missingKeyWarning] }
  | some apiKey =>
    let query := tmdbQuery apiKey params
    let effOptions : FetchOptions :=
      { options with revalidate := some (options.revalidate.getD 3600) }
    match upstream endpoint query effOptions with
    | .ok body => { result := .ok (some body), warnings := [] }
    | .httpError s env =>
        { result := .error (.tmdb (TMDBError.ofResponse env s)), warnings := [] }
    | .networkFailure m => { result := .error (.network m), warnings := [] }

/-- An upstream observer that reports back which `api_key` value the built
request URL carried. -/
def apiKeyProbe : String → URLParams → FetchOptions → HttpResult (Option String) :=
  fun _ query _ => .ok (query "api_key")

/-- A fixed upstream that rejects every request with HTTP 404 and the TMDB
"resource not found" envelope (spec scenario 9). -/
def notFoundUpstream : String → URLParams → FetchOptions → HttpResult Nat :=
  fun _ _ _ =>
    .httpError 404 ⟨34, "The resource you requested could not be found."⟩

/-! ## Asset URL helpers (`getPosterUrl`, `getBackdropUrl`) -/

/-- `type PosterSize` string-literal union. -/
inductive PosterSize where
  | w92 | w154 | w185 | w342 | w500 | w780 | original
deriving DecidableEq, Repr

def PosterSize.str : PosterSize → String
  | .w92 => "w92"
  | .w154 => "w154"
  | .w185 => "w185"
  | .w342 => "w342"
  | .w500 => "w500"
  | .w780 => "w780"
  | .original => "original"

/-- `type BackdropSize` string-literal union. -/
inductive BackdropSize where
  | w300 | w780 | w1280 | original
deriving DecidableEq, Repr

def BackdropSize.str : BackdropSize → String
  | .w300 => "w300"
  | .w780 => "w780"
  | .w1280 => "w1280"
  | .original => "original"

/-- `getPosterUrl(path, size = "w500")`.  `if (!path)` is a JS falsy check,
so both `null` and the empty string fall back to the placeholder. -/
def getPosterUrl (path : Option String) (size : PosterSize := .w500) : String :=
  match path with
  | none => "/images/no-poster.svg"
  | some p =>
    if p = "" then "/images/no-poster.svg"
    else TMDB_IMAGE_BASE_URL ++ "/" ++ size.str ++ p

/-- `getBackdropUrl(path, size = "w1280")`, same falsy fallback. -/
def getBackdropUrl (path : Option String) (size : BackdropSize := .w1280) :
    String :=
  match path with
  | none => "/images/no-backdrop.svg"
  | some p =>
    if p = "" then "/images/no-backdrop.svg"
    else TMDB_IMAGE_BASE_URL ++ "/" ++ size.str ++ p

end Cinepicker

namespace Cinepicker.InfiniteScroll

/-! ## The `useInfiniteScroll` pagination engine

The hook's observable behaviour is embedded as a state machine.  The React
state (`data`, `page`, `isLoading`, `isInitialLoading`, `hasMore`, `error`,
`totalResults`), the `isFetchingRef` boolean ref and the current
`queryString` fingerprint (from props) form the engine state; the actually
outstanding HTTP requests are tracked explicitly in `outstanding` so that
exclusivity is a statement, not a modelling assumption.  The single-threaded
event loop delivers four kinds of events: a filter change (the
`[fetchData, enabled]` effect re-running because `queryString` changed), a
sentinel intersection callback, the arrival of the outstanding response, and
a manual `reset()`. -/

/-- `interface PaginatedResponse<T>` from the hook. -/
structure PaginatedResponse (T : Type) where
  page : Nat
  results : List T
  total_pages : Nat
  total_results : Nat
deriving DecidableEq, Repr

/-- Settlement of one HTTP round trip, as seen by `fetchData`'s
`try`/`catch`: a parsed 2xx body, or a caught error with the message that
ends up in `setError` (the hook throws a fixed Korean message on a non-ok
status and propagates the network error's own message otherwise). -/
inductive FetchResult (T : Type) where
  | success (resp : PaginatedResponse T)
  | failure (msg : String)
deriving DecidableEq, Repr

/-- One request issued by `fetchData`, tagged with the fingerprint the
closure captured, the requested page and the `isReset` flag. -/
structure PendingFetch where
  fingerprint : String
  pageNum : Nat
  isReset : Bool
deriving DecidableEq, Repr

/-- The engine state of one hook instance. -/
structure Engine (T : Type) where
  data : List T
  page : Nat
  isLoading : Bool
  isInitialLoading : Bool
  hasMore : Bool
  error : Option String
  totalResults : Nat
  /-- current `queryString` (serialized `queryParams` prop) -/
  fingerprint : String
  /-- `isFetchingRef.current` -/
  isFetching : Bool
  /-- HTTP requests issued but not yet settled -/
  outstanding : List PendingFetch
deriving DecidableEq, Repr

/-- The upstream behaviour: what the proxy route answers for a given
fingerprint and page.  (The hook keys its URL on `queryString` and `page`.) -/
def Oracle (T : Type) : Type := String → Nat → FetchResult T

/-- `useState` initial values at mount: `data=[]`, `page=1`,
`isLoading=false`, `isInitialLoading=true`, `hasMore=true`, `error=null`,
`totalResults=0`, `isFetchingRef.current=false`. -/
def initialEngine (T : Type) (fp : String) : Engine T :=
  { data := [], page := 1, isLoading := false, isInitialLoading := true
    hasMore := true, error := none, totalResults := 0, fingerprint := fp
    isFetching := false, outstanding := [] }

/-- `fetchData(pageNum, isReset)` up to its first suspension point: the
duplicate-request guard, then `isFetchingRef.current = true`,
`setIsLoading(true)`, `setError(null)`, and the `fetch` call going out
(tagged with the fingerprint the closure captured). -/
def fetchData {T : Type} (e : Engine T) (pageNum : Nat) (isReset : Bool) :
    Engine T :=
  if e.isFetching then e
  else
    { e with isFetching := true, isLoading := true, error := none
             outstanding :=
               e.outstanding ++ [⟨e.fingerprint, pageNum, isReset⟩] }

/-- Body of the filter-change effect and of `reset()`: `setData([])`,
`setPage(1)`, `setHasMore(true)`, `setIsInitialLoading(true)`, then
`fetchData(1, true)`. -/
def resetAndRefetch {T : Type} (e : Engine T) : Engine T :=
  fetchData
    { e with data := [], page := 1, hasMore := true, isInitialLoading := true }
    1 true

/-- Arrival of the oldest outstanding response: the continuation of
`fetchData` after `await`.  On success it accumulates (`isReset` replaces,
otherwise appends), sets `totalResults`, `hasMore = pageNum < total_pages`
and `page = pageNum`; on failure it sets the error message; the `finally`
block then clears both loading flags and the guard. -/
def applyCompletion {T : Type} (o : Oracle T) (e : Engine T) : Engine T :=
  match e.outstanding with
  | [] => e
  | req :: rest =>
    let e1 :=
      match o req.fingerprint req.pageNum with
      | .success resp =>
        { e with
            data := if req.isReset then resp.results
                    else e.data ++ resp.results
            totalResults := resp.total_results
            hasMore := decide (req.pageNum < resp.total_pages)
            page := req.pageNum }
      | .failure msg => { e with error := some msg }
    { e1 with isLoading := false, isInitialLoading := false
              isFetching := false, outstanding := rest }

/-- UI events delivered to the engine by the event loop. -/
inductive Event where
  | filterChange (newFp : String)
  | sentinel
  | complete
  | reset
deriving DecidableEq, Repr

/-- One event-loop step.  A filter change swaps the fingerprint prop and
re-runs the `[fetchData, enabled]` effect; the sentinel callback fires only
when `entry.isIntersecting && hasMore && !isFetchingRef.current` and then
calls `fetchData(page + 1, false)`; `complete` settles the outstanding
request; `reset()` re-runs the reset body under the current fingerprint. -/
def step {T : Type} (o : Oracle T) (e : Engine T) : Event → Engine T
  | .filterChange newFp => resetAndRefetch { e with fingerprint := newFp }
  | .sentinel =>
    if e.hasMore && !e.isFetching then fetchData e (e.page + 1) false else e
  | .complete => applyCompletion o e
  | .reset => resetAndRefetch e

/-- Run a trace of events. -/
def run {T : Type} (o : Oracle T) (e : Engine T) (evs : List Event) :
    Engine T :=
  evs.foldl (step o) e

/-- The page results an oracle serves for a given fingerprint (empty when the
oracle fails that request). -/
def epochResults {T : Type} (o : Oracle T) (fp : String) (p : Nat) : List T :=
  match o fp p with
  | .success r => r.results
  | .failure _ => []

/-- Mutual-exclusion invariant: at most one HTTP request is outstanding, and
`isFetchingRef.current` is set exactly while one is. -/
def EngineInv {T : Type} (e : Engine T) : Prop :=
  e.outstanding.length ≤ 1 ∧ (e.isFetching = true ↔ e.outstanding ≠ [])

instance {T : Type} (e : Engine T) : Decidable (EngineInv e) := by
  unfold EngineInv; infer_instance

/-- Expected engine state after page `k` of a clean epoch under fingerprint
`fp` whose upstream serves `resp`: the items are pages 1..k concatenated in
order, the engine is settled. -/
def epochState {T : Type} (fp : String) (resp : Nat → PaginatedResponse T)
    (k : Nat) : Engine T :=
  { data := ((List.range k).map (fun i => (resp (i + 1)).results)).flatten
    page := k, isLoading := false, isInitialLoading := false
    hasMore := decide (k < (resp k).total_pages)
    error := none, totalResults := (resp k).total_results
    fingerprint := fp, isFetching := false, outstanding := [] }

/-- `n` rounds of sentinel-triggered load-more, each settling before the
next trigger. -/
def loadMoreTrace (n : Nat) : List Event :=
  (List.replicate n [Event.sentinel, Event.complete]).flatten

/-- A clean epoch: rotate to `fp`, settle page 1, then `n` load-more
rounds. -/
def epochTrace (fp : String) (n : Nat) : List Event :=
  [Event.filterChange fp, Event.complete] ++ loadMoreTrace n

/-! ### Concrete scenario inputs used by the claim theorems -/

/-- Upstream for the stale-epoch scenario: fingerprint `"A"` has three pages
(`[1,2]` then `[3,4]`), fingerprint `"B"` has the single page `[10,11]`. -/
def oracleC1 : Oracle Nat := fun fp p =>
  if fp = "A" ∧ p = 1 then .success ⟨1, [1, 2], 3, 50⟩
  else if fp = "A" ∧ p = 2 then .success ⟨2, [3, 4], 3, 50⟩
  else if fp = "B" ∧ p = 1 then .success ⟨1, [10, 11], 1, 2⟩
  else .failure "unexpected request"

/-- Spec edge case (b): epoch `"A"` loads page 1, the sentinel fires a
page-2 fetch, the filters change to `"B"` while it is in flight, and only
then does the page-2 response arrive. -/
def staleTrace : List Event :=
  [.filterChange "A", .complete, .sentinel, .filterChange "B", .complete]

/-- Spec scenario 7 pages: `[A,B]`, `[C,D]`, `[E]` with `total_pages = 3`. -/
def resp7 : Nat → PaginatedResponse String := fun k =>
  match k with
  | 1 => ⟨1, ["A", "B"], 3, 50⟩
  | 2 => ⟨2, ["C", "D"], 3, 50⟩
  | _ => ⟨3, ["E"], 3, 50⟩

/-- Upstream serving `resp7` for every fingerprint. -/
def oracle7 : Oracle String := fun _ k => .success (resp7 k)

/-- An upstream that fails every request with a fixed message. -/
def failOracle : Oracle Nat := fun _ _ => .failure "데이터를 불러오는 중 오류가 발생했습니다."

/-- An engine with one fetch outstanding for page 1 of fingerprint `"A"`. -/
def fetchingEngine : Engine Nat :=
  { initialEngine Nat "A" with
      isFetching := true, isLoading := true
      outstanding := [⟨"A", 1, true⟩] }

/-- An engine that has accumulated `[7, 8]` and is loading page 2. -/
def loadedEngine : Engine Nat :=
  { data := [7, 8], page := 1, isLoading := true, isInitialLoading := false
    hasMore := true, error := none, totalResults := 4, fingerprint := "A"
    isFetching := true, outstanding := [⟨"A", 2, false⟩] }

/-- An upstream giving a single empty page-1 with `total_pages = 0` (spec
edge case (a)). -/
def emptyOracle : Oracle Nat := fun _ p =>
  if p = 1 then .success ⟨1, [], 0, 0⟩ else .failure "unexpected request"

end Cinepicker.InfiniteScroll

namespace Cinepicker

/-! ## Claim theorems about the fetch client -/

/-- Claim C6: with no API credential configured, `fetchTMDB` never throws for
any endpoint, caller params, or cache options: it emits exactly the warning
and returns the null sentinel. -/
theorem fetchTMDB_missing_key_soft_degrades {T : Type} (endpoint : String)
    (params : List (String × String)) (options : FetchOptions)
    (upstream : String → URLParams → FetchOptions → HttpResult T) :
    fetchTMDB none endpoint params options upstream =
      { result := .ok none, warnings := [missingKeyWarning] } := by
  rfl

/-- Claim C9: the asset URL builders are total String-valued functions; a null
or empty path yields the fixed placeholder, and a non-empty path yields
exactly `{base}/{size}{path}`. -/
theorem asset_url_placeholder_and_concat (ps : PosterSize) (bs : BackdropSize)
    (p : String) :
    getPosterUrl none ps = "/images/no-poster.svg" ∧
    getPosterUrl (some "") ps = "/images/no-poster.svg" ∧
    getBackdropUrl none bs = "/images/no-backdrop.svg" ∧
    getBackdropUrl (some "") bs = "/images/no-backdrop.svg" ∧
    (p ≠ "" → getPosterUrl (some p) ps =
      TMDB_IMAGE_BASE_URL ++ "/" ++ ps.str ++ p) ∧
    (p ≠ "" → getBackdropUrl (some p) bs =
      TMDB_IMAGE_BASE_URL ++ "/" ++ bs.str ++ p) := by
  refine ⟨rfl, rfl, rfl, rfl, ?_, ?_⟩ <;>
    intro h <;> simp [getPosterUrl, getBackdropUrl, h]

/-- Witness for C9 at the poster size `w500` and path `/abc.jpg`. -/
theorem asset_url_placeholder_and_concat_witness :
    getPosterUrl (some "/abc.jpg") PosterSize.w500 =
      TMDB_IMAGE_BASE_URL ++ "/" ++ PosterSize.w500.str ++ "/abc.jpg" :=
  (asset_url_placeholder_and_concat PosterSize.w500 BackdropSize.w1280
    "/abc.jpg").2.2.2.2.1 (by decide)

theorem applyCallerParams_lookup (ps : List (String × String))
    (base : URLParams) (k : String) :
    applyCallerParams base ps k =
      match lastAssoc ps k with
      | some v => some v
      | none => base k := by
  induction ps generalizing base with
  | nil => rfl
  | cons kv rest ih =>
    show applyCallerParams (setParam base kv.1 kv.2) rest k = _
    rw [ih]
    rcases h : lastAssoc rest k with _ | v <;>
      simp only [lastAssoc, h, setParam]
    by_cases hk : kv.1 = k <;> simp [hk]
    intro hk2
    exact absurd hk2.symm hk

/-- Counterexample to claim C2 as stated: the caller CAN override the
credential.  With the environment credential `"env-key"`, a caller-supplied
`api_key=caller-key` parameter ends up in the built request URL in place of
the configured credential, because `fetchTMDB` sets `api_key` first and
merges the caller's params afterwards. -/
theorem fetchTMDB_caller_overrides_credential :
    (fetchTMDB (some "env-key") "/movie/popular" [("api_key", "caller-key")]
        {} apiKeyProbe).result = .ok (some (some "caller-key")) ∧
      "caller-key" ≠ "env-key" := by
  constructor
  · rfl
  · decide

/-- Claim C2 amended: in the built request URL, caller-supplied keys take
precedence over ALL client-injected defaults — including the API credential,
which a caller-supplied `api_key` parameter replaces.  Only when the caller
does not supply a key does the injected value apply: the environment
credential for `api_key`, `ko-KR` for `language`, `KR` for `region`, and
nothing for any other key. -/
theorem tmdbQuery_characterization (apiKey : String)
    (params : List (String × String)) (k : String) :
    tmdbQuery apiKey params k =
      match lastAssoc params k with
      | some v => some v
      | none =>
        if k = "region" then some DEFAULT_REGION
        else if k = "language" then some DEFAULT_LANGUAGE
        else if k = "api_key" then some apiKey
        else none := by
  rw [tmdbQuery, applyCallerParams_lookup]
  rcases lastAssoc params k with _ | v <;>
    simp [injectedDefaults, setParam, emptyParams]

/-- Claim C7: when the upstream answers the built request with a non-success
HTTP status and an error envelope, `fetchTMDB` throws (returns `.error`, not
`.ok`) a typed `TMDBError` that carries the envelope's `status_code` and
`status_message` as fields, with the HTTP status recorded in the error
message — distinguishable from a network failure (`.network`) and from the
missing-credential soft-degrade (which returns `.ok none`). -/
theorem fetchTMDB_http_error_typed {T : Type} (apiKey endpoint : String)
    (params : List (String × String)) (options : FetchOptions)
    (upstream : String → URLParams → FetchOptions → HttpResult T)
    (s : Nat) (env : TMDBErrorResponse)
    (hup : upstream endpoint (tmdbQuery apiKey params)
      { options with revalidate := some (options.revalidate.getD 3600) } =
        .httpError s env) :
    (fetchTMDB (some apiKey) endpoint params options upstream).result =
      .error (.tmdb
        { name := "TMDBError"
          message := "TMDB API Error (" ++ toString s ++ "): " ++
            env.status_message
          statusCode := env.status_code
          statusMessage := env.status_message }) := by
  simp [fetchTMDB, hup, TMDBError.ofResponse]

/-- Witness for C7 at the scenario-9 input: HTTP 404 with
`status_code = 34`. -/
theorem fetchTMDB_http_error_typed_witness :
    (fetchTMDB (some "env-key") "/movie/999" [] {} notFoundUpstream).result =
      .error (.tmdb
        { name := "TMDBError"
          message := "TMDB API Error (" ++ toString 404 ++ "): " ++
            "The resource you requested could not be found."
          statusCode := 34
          statusMessage := "The resource you requested could not be found." }) :=
  fetchTMDB_http_error_typed "env-key" "/movie/999" [] {} notFoundUpstream
    404 ⟨34, "The resource you requested could not be found."⟩ rfl

end Cinepicker

namespace Cinepicker.InfiniteScroll

/-! ## Claim theorems about the pagination engine -/

theorem run_append {T : Type} (o : Oracle T) (e : Engine T)
    (l1 l2 : List Event) : run o e (l1 ++ l2) = run o (run o e l1) l2 :=
  List.foldl_append ..

theorem EngineInv_fetchData {T : Type} {e : Engine T} (h : EngineInv e)
    (pageNum : Nat) (isReset : Bool) :
    EngineInv (fetchData e pageNum isReset) := by
  obtain ⟨hlen, hiff⟩ := h
  unfold fetchData
  by_cases hf : e.isFetching
  · simpa [hf] using ⟨hlen, hiff⟩
  · have hout : e.outstanding = [] := by
      by_contra hne
      exact hf (hiff.mpr hne)
    simp [hf, EngineInv, hout]

theorem EngineInv_congr {T : Type} {e e' : Engine T}
    (hf : e'.isFetching = e.isFetching) (ho : e'.outstanding = e.outstanding)
    (h : EngineInv e) : EngineInv e' := by
  unfold EngineInv at h ⊢
  rw [hf, ho]
  exact h

theorem EngineInv_resetAndRefetch {T : Type} {e : Engine T}
    (h : EngineInv e) : EngineInv (resetAndRefetch e) := by
  unfold resetAndRefetch
  apply EngineInv_fetchData
  exact EngineInv_congr rfl rfl h

theorem EngineInv_applyCompletion {T : Type} {e : Engine T} (h : EngineInv e)
    (o : Oracle T) : EngineInv (applyCompletion o e) := by
  obtain ⟨hlen, hiff⟩ := h
  unfold applyCompletion
  rcases hout : e.outstanding with _ | ⟨req, rest⟩
  · exact ⟨hlen, hiff⟩
  · have hrest : rest = [] := by
      rw [hout] at hlen
      simpa using hlen
    rcases o req.fingerprint req.pageNum with resp | msg <;>
      simp [EngineInv, hrest]

/-- Claim C3: the in-flight guard makes fetches mutually exclusive.  The
invariant "at most one request outstanding, and the guard set exactly while
one is" holds initially and is preserved by every event; while the guard is
set, a sentinel trigger leaves the engine completely unchanged, and even an
epoch rotation issues no new request. -/
theorem inflight_exclusivity {T : Type} (o : Oracle T) (e : Engine T)
    (ev : Event) (fp : String) :
    EngineInv (initialEngine T fp) ∧
    (EngineInv e → EngineInv (step o e ev)) ∧
    (e.isFetching = true → step o e Event.sentinel = e) ∧
    (e.isFetching = true →
      (step o e (Event.filterChange fp)).outstanding = e.outstanding) := by
  refine ⟨by simp [EngineInv, initialEngine], ?_, ?_, ?_⟩
  · intro h
    cases ev with
    | filterChange newFp =>
      exact EngineInv_resetAndRefetch (EngineInv_congr rfl rfl h)
    | sentinel =>
      show EngineInv
        (if e.hasMore && !e.isFetching then fetchData e (e.page + 1) false
         else e)
      split
      · exact EngineInv_fetchData h _ _
      · exact h
    | complete => exact EngineInv_applyCompletion h o
    | reset => exact EngineInv_resetAndRefetch h
  · intro hf
    simp [step, hf]
  · intro hf
    simp [step, resetAndRefetch, fetchData, hf]

/-- Witness for C3: the invariant survives a completion on an engine with a
fetch outstanding, and a sentinel trigger while that fetch is outstanding is
a no-op. -/
theorem inflight_exclusivity_witness :
    EngineInv (step failOracle fetchingEngine Event.complete) ∧
    step failOracle fetchingEngine Event.sentinel = fetchingEngine :=
  ⟨(inflight_exclusivity failOracle fetchingEngine Event.complete "B").2.1
      (by decide),
    (inflight_exclusivity failOracle fetchingEngine Event.complete "B").2.2.1
      (by decide)⟩

/-- Claim C8: a failed fetch sets the error message and clears the loading
flags, but leaves the accumulated items, `hasMore` and `totalResults`
exactly as they were. -/
theorem fetch_failure_preserves_items {T : Type} (o : Oracle T)
    (e : Engine T) (req : PendingFetch) (rest : List PendingFetch)
    (msg : String) (hout : e.outstanding = req :: rest)
    (hfail : o req.fingerprint req.pageNum = .failure msg) :
    (applyCompletion o e).data = e.data ∧
    (applyCompletion o e).hasMore = e.hasMore ∧
    (applyCompletion o e).totalResults = e.totalResults ∧
    (applyCompletion o e).error = some msg ∧
    (applyCompletion o e).isLoading = false ∧
    (applyCompletion o e).isFetching = false := by
  simp [applyCompletion, hout, hfail]

/-- Witness for C8: the failing load-more on an engine holding `[7, 8]`
keeps the items and `hasMore`. -/
theorem fetch_failure_preserves_items_witness :
    (applyCompletion failOracle loadedEngine).data = [7, 8] ∧
    (applyCompletion failOracle loadedEngine).hasMore = true ∧
    (applyCompletion failOracle loadedEngine).error =
      some "데이터를 불러오는 중 오류가 발생했습니다." := by
  have h := fetch_failure_preserves_items failOracle loadedEngine
    ⟨"A", 2, false⟩ [] "데이터를 불러오는 중 오류가 발생했습니다." rfl rfl
  exact ⟨h.1.trans rfl, h.2.1.trans rfl, h.2.2.2.1⟩

/-- Claim C10: settling a fetch (success or failure alike — the oracle is
arbitrary) clears the guard and removes the request in the `finally` path,
so afterwards a manual reset, or a sentinel trigger with `hasMore`, always
issues its fetch rather than being blocked by a stuck guard. -/
theorem guard_released_on_settle {T : Type} (o : Oracle T) (e : Engine T)
    (hne : e.outstanding ≠ []) :
    (applyCompletion o e).isFetching = false ∧
    (applyCompletion o e).isLoading = false ∧
    (applyCompletion o e).outstanding = e.outstanding.tail ∧
    (∀ e2 : Engine T, e2.isFetching = false →
      (step o e2 Event.reset).outstanding =
        e2.outstanding ++ [⟨e2.fingerprint, 1, true⟩]) ∧
    (∀ e2 : Engine T, e2.isFetching = false → e2.hasMore = true →
      (step o e2 Event.sentinel).outstanding =
        e2.outstanding ++ [⟨e2.fingerprint, e2.page + 1, false⟩]) := by
  refine ⟨?_, ?_, ?_, ?_, ?_⟩
  · rcases hout : e.outstanding with _ | ⟨req, rest⟩
    · exact absurd hout hne
    · rcases hresp : o req.fingerprint req.pageNum with resp | msg <;>
        simp [applyCompletion, hout, hresp]
  · rcases hout : e.outstanding with _ | ⟨req, rest⟩
    · exact absurd hout hne
    · rcases hresp : o req.fingerprint req.pageNum with resp | msg <;>
        simp [applyCompletion, hout, hresp]
  · rcases hout : e.outstanding with _ | ⟨req, rest⟩
    · exact absurd hout hne
    · rcases hresp : o req.fingerprint req.pageNum with resp | msg <;>
        simp [applyCompletion, hout, hresp]
  · intro e2 hf
    simp [step, resetAndRefetch, fetchData, hf]
  · intro e2 hf hm
    simp [step, fetchData, hf, hm]

/-- Witness for C10: after the outstanding fetch on `fetchingEngine` fails,
the guard is clear, and a reset on the settled engine issues a page-1
fetch. -/
theorem guard_released_on_settle_witness :
    (applyCompletion failOracle fetchingEngine).isFetching = false ∧
    (step failOracle (initialEngine Nat "A") Event.reset).outstanding =
      [⟨"A", 1, true⟩] := by
  have h := guard_released_on_settle failOracle fetchingEngine (by decide)
  exact ⟨h.1, (h.2.2.2.1 (initialEngine Nat "A") rfl).trans rfl⟩

/-- Claim C1 (code bug): the hook has no epoch tag on in-flight requests, so
a response issued under an old fingerprint that arrives after rotation is
appended, not discarded.  In the `staleTrace` run, epoch `"A"` loads page 1,
a page-2 fetch goes out, the filter rotates to `"B"` (whose own initial
fetch is skipped because the guard is still set), and the stale `"A"` page-2
response then lands: the settled engine shows fingerprint `"B"` but items
`[3, 4]`, which no page of fingerprint `"B"` contains. -/
theorem stale_response_appended_after_rotation :
    (run oracleC1 (initialEngine Nat "") staleTrace).fingerprint = "B" ∧
    (run oracleC1 (initialEngine Nat "") staleTrace).outstanding = [] ∧
    (run oracleC1 (initialEngine Nat "") staleTrace).isFetching = false ∧
    (run oracleC1 (initialEngine Nat "") staleTrace).data = [3, 4] ∧
    (∀ p, 3 ∉ epochResults oracleC1 "B" p) := by
  refine ⟨by decide, by decide, by decide, by decide, fun p => ?_⟩
  by_cases h : p = 1
  · subst h; decide
  · simp [epochResults, oracleC1, h]

end Cinepicker.InfiniteScroll
namespace Cinepicker.InfiniteScroll

theorem epoch_init {T : Type} (o : Oracle T) (fp fp0 : String)
    (resp : Nat → PaginatedResponse T)
    (h1 : o fp 1 = .success (resp 1)) :
    run o (initialEngine T fp0) [Event.filterChange fp, Event.complete] =
      epochState fp resp 1 := by
  simp [run, step, resetAndRefetch, fetchData, applyCompletion, initialEngine,
    epochState, h1, List.range_succ]

theorem epoch_round {T : Type} (o : Oracle T) (fp : String)
    (resp : Nat → PaginatedResponse T) (k : Nat)
    (hk : k < (resp k).total_pages)
    (hs : o fp (k + 1) = .success (resp (k + 1))) :
    run o (epochState fp resp k) [Event.sentinel, Event.complete] =
      epochState fp resp (k + 1) := by
  simp [run, step, fetchData, applyCompletion, epochState, hk, hs,
    List.range_succ]

/-- Claim C4: within one epoch, after the initial page-1 load and `n`
further sentinel-triggered load-more rounds that all succeed, the
accumulated items are exactly the concatenation, in order, of the result
sequences of pages 1 through `n + 1` — appended at the tail, with nothing
re-sorted, deduplicated, modified or removed. -/
theorem epoch_append_only {T : Type} (o : Oracle T) (fp fp0 : String)
    (resp : Nat → PaginatedResponse T) (n : Nat)
    (hs : ∀ k, 1 ≤ k → k ≤ n + 1 → o fp k = .success (resp k))
    (hm : ∀ k, 1 ≤ k → k ≤ n → k < (resp k).total_pages) :
    run o (initialEngine T fp0) (epochTrace fp n) =
      epochState fp resp (n + 1) := by
  induction n with
  | zero =>
    have h1 := hs 1 (by omega) (by omega)
    simpa [epochTrace, loadMoreTrace] using epoch_init o fp fp0 resp h1
  | succ m ih =>
    have htr : epochTrace fp (m + 1) =
        epochTrace fp m ++ [Event.sentinel, Event.complete] := by
      simp [epochTrace, loadMoreTrace, List.replicate_succ']
    rw [htr, run_append,
      ih (fun k h1 h2 => hs k h1 (by omega))
        (fun k h1 h2 => hm k h1 (by omega))]
    exact epoch_round o fp resp (m + 1) (hm (m + 1) (by omega) (by omega))
      (hs (m + 2) (by omega) (by omega))

/-- Witness for C4 at spec scenario 7: pages `[A,B]`, `[C,D]`, `[E]`
accumulate to `[A,B,C,D,E]`. -/
theorem epoch_append_only_witness :
    (run oracle7 (initialEngine String "") (epochTrace "g" 2)).data =
      ["A", "B", "C", "D", "E"] := by
  rw [epoch_append_only oracle7 "g" "" resp7 2 (fun k h1 h2 => rfl)
    (fun k h1 h2 => by interval_cases k <;> decide)]
  decide

/-- Claim C5: applying a successful response whose `page` field matches the
requested page yields `hasMore = (page < total_pages)`; and a page-1
response with `total_pages = 0` and no results settles with
`hasMore = false`, empty items and no error. -/
theorem hasMore_correctness {T : Type} (o : Oracle T) :
    (∀ (e : Engine T) (req : PendingFetch) (rest : List PendingFetch)
        (resp : PaginatedResponse T),
      e.outstanding = req :: rest →
      o req.fingerprint req.pageNum = .success resp →
      resp.page = req.pageNum →
      (applyCompletion o e).hasMore =
        decide (resp.page < resp.total_pages)) ∧
    (∀ (fp fp0 : String) (resp : PaginatedResponse T),
      o fp 1 = .success resp → resp.total_pages = 0 → resp.results = [] →
      (run o (initialEngine T fp0)
          [Event.filterChange fp, Event.complete]).hasMore = false ∧
      (run o (initialEngine T fp0)
          [Event.filterChange fp, Event.complete]).data = [] ∧
      (run o (initialEngine T fp0)
          [Event.filterChange fp, Event.complete]).error = none) := by
  constructor
  · intro e req rest resp hout hsucc hpage
    simp [applyCompletion, hout, hsucc, hpage]
  · intro fp fp0 resp hsucc htp hres
    simp [run, step, resetAndRefetch, fetchData, applyCompletion,
      initialEngine, hsucc, htp, hres]

/-- Witness for C5: a page-1 response with `total_pages = 3` gives
`hasMore = (1 < 3)`, and the empty page-1 with `total_pages = 0` settles
with `hasMore = false`. -/
theorem hasMore_correctness_witness :
    (applyCompletion oracleC1 fetchingEngine).hasMore =
      decide ((1 : Nat) < 3) ∧
    (run emptyOracle (initialEngine Nat "q")
        [Event.filterChange "q", Event.complete]).hasMore = false := by
  constructor
  · exact (hasMore_correctness oracleC1).1 fetchingEngine ⟨"A", 1, true⟩ []
      ⟨1, [1, 2], 3, 50⟩ rfl (by decide) rfl
  · exact ((hasMore_correctness emptyOracle).2 "q" "q" ⟨1, [], 0, 0⟩
      (by decide) rfl rfl).1

end Cinepicker.InfiniteScroll
